import Mathlib

/-!
Formal model of the temporal playback engine of the Virginia Land Grant Atlas.

Years are modelled as integers (`ℤ`).  The year histogram is a total function
`ℤ → ℕ` (in JavaScript `yearCounts.get(y) || 0` makes the partial map total with
default 0).  De-duplication references (`lastRenderedYearRef`,
`lastSoundedYearRef`, `lastTickedYearRef`) are `Option ℤ`, with `none` for the
initial `null`.
-/

set_option maxRecDepth 100000

namespace VAAtlas

/-- RenderSync: one invocation of `GrantMap.handleAfterRender` (the
`onAfterRender` callback).  Input: the histogram, the last-rendered-year
reference and the current `yearMax`.  Output: the updated reference and the
`onRenderedYearTick` event, if any.  Source:
if the ref already equals `yearMax`, return; otherwise look up the count,
emit `(yearMax, count)` when the count is positive, and in either case set
the ref to `yearMax`. -/
def syncStep (hist : ℤ → ℕ) (last : Option ℤ) (yearMax : ℤ) :
    Option ℤ × Option (ℤ × ℕ) :=
  if last = some yearMax then (last, none)
  else
    let count := hist yearMax
    (some yearMax, if 0 < count then some (yearMax, count) else none)

/-- RenderSync driven over a list of per-frame `yearMax` values, collecting all
emitted `onRenderedYearTick` events in order. -/
def runSync (hist : ℤ → ℕ) : Option ℤ → List ℤ → Option ℤ × List (ℤ × ℕ)
  | last, [] => (last, [])
  | last, y :: ys =>
    let step := syncStep hist last y
    let rest := runSync hist step.1 ys
    (rest.1, step.2.toList ++ rest.2)

/-- Frame sequence of a playback run with repeats: each upper value `y` of
`years` is rendered `k y` times in a row (a monotone sweep in which several
frames may complete for the same published range). -/
def expandFrames (k : ℤ → ℕ) : List ℤ → List ℤ
  | [] => []
  | y :: ys => List.replicate (k y) y ++ expandFrames k ys

/-- App-side sound layer: the `onRenderedYearTick` handler in `App.tsx`.
Given the `isPlaying` / `isMuted` flags and `lastSoundedYearRef`, an incoming
`(year, count)` event updates the ref and asks the sonifier to play when the
count is positive.  Source: return early unless playing and not muted; return
if `lastSoundedYearRef.current === year`; call `sonifier.playYear` when
`count > 0`; set `lastSoundedYearRef.current = year`. -/
def soundStep (playing muted : Bool) (lastSounded : Option ℤ) (ev : ℤ × ℕ) :
    Option ℤ × Option (ℤ × ℕ) :=
  if playing = false ∨ muted = true then (lastSounded, none)
  else if lastSounded = some ev.1 then (lastSounded, none)
  else (some ev.1, if 0 < ev.2 then some ev else none)

/-- Composite RenderSync → sound pipeline over a list of frames during active,
unmuted playback: every frame goes through `syncStep`; each emitted event is
fed to `soundStep`.  Returns the final render ref, the final sounded ref, and
the list of `(year, count)` pairs actually passed to `sonifier.playYear`. -/
def playFrames (hist : ℤ → ℕ) :
    Option ℤ → Option ℤ → List ℤ → Option ℤ × Option ℤ × List (ℤ × ℕ)
  | r, s, [] => (r, s, [])
  | r, s, y :: ys =>
    let rs := syncStep hist r y
    let ss :=
      match rs.2 with
      | none => (s, (none : Option (ℤ × ℕ)))
      | some ev => soundStep true false s ev
    let rest := playFrames hist rs.1 ss.1 ys
    (rest.1, rest.2.1, ss.2.toList ++ rest.2.2)

/-- Upper-bound values published by one full playback run of `handlePlay`:
1600 (the initial `updateURL(1600, 1600)`) followed by the interval ticks
1601, …, 1800. -/
def sweepFrames : List ℤ :=
  (List.range 201).map fun i => 1600 + (i : ℤ)

/-- AnimationDriver state: the closure variable `current` of `handlePlay`, the
`isPlaying` React state and whether the interval timer is still armed
(`playTimerRef.current !== null`). -/
structure DriverState where
  current : ℤ
  playing : Bool
  timerOn : Bool
deriving DecidableEq

/-- One interval tick of the timer armed by `handlePlay`.  Source: `current += 1`;
`nextMax = Math.min(current, 1800)`; publish `updateURL(1600, nextMax)`; if
`nextMax >= 1800` clear the interval and set `isPlaying` to false.  A tick
with the timer cleared does nothing (the interval no longer fires). -/
def tickOnce (d : DriverState) : DriverState × Option (ℤ × ℤ) :=
  if d.timerOn = false then (d, none)
  else
    let c := d.current + 1
    let nextMax := min c 1800
    if 1800 ≤ nextMax then
      ({ current := c, playing := false, timerOn := false }, some (1600, nextMax))
    else
      ({ current := c, playing := d.playing, timerOn := d.timerOn }, some (1600, nextMax))

/-- Run `n` timer ticks, collecting every published `(lower, upper)` range. -/
def runTicks : ℕ → DriverState → DriverState × List (ℤ × ℤ)
  | 0, d => (d, [])
  | n + 1, d =>
    let step := tickOnce d
    let rest := runTicks n step.1
    (rest.1, step.2.toList ++ rest.2)

/-- Synchronous start of a run in `handlePlay` (after the `isPlaying` guard):
`current = 1600`, timer armed, and the initial publish
`updateURL(1600, 1600)`. -/
def startDriver : DriverState × (ℤ × ℤ) :=
  ({ current := 1600, playing := true, timerOn := true }, (1600, 1600))

/-- App playback state touched by `handlePlay`: `isPlaying`,
`lastTickedYearRef`, `lastSoundedYearRef`, the closure variable `current` and
`playTimerRef`. -/
structure PlayState where
  isPlaying : Bool
  lastTicked : Option ℤ
  lastSounded : Option ℤ
  current : Option ℤ
  timerId : Option ℕ
deriving DecidableEq

/-- Synchronous part of `handlePlay` in `App.tsx`.  Source: if `isPlaying`,
return (no-op); otherwise set `isPlaying`, null both de-duplication refs,
set `current = 1600`, publish `updateURL(1600, 1600)`, set
`lastTickedYearRef.current = 1600` and arm the interval timer (the timer id
returned by `setInterval` is abstracted to `some 1`).  `sonifier.init()` and
the `showRadius` pass-through are orthogonal to this state and not modelled
here. -/
def handlePlay (s : PlayState) : PlayState × List (ℤ × ℤ) :=
  if s.isPlaying then (s, [])
  else
    ({ isPlaying := true, lastTicked := some 1600, lastSounded := none,
       current := some 1600, timerId := some 1 }, [(1600, 1600)])

/-- One full playback run at the frame level, as wired in `App.tsx`:
`handlePlay` on a non-playing state seeds the sound de-duplication ref from
its reset (`lastSoundedYearRef.current = null`), while the render-side ref
`lastRenderedYearRef` (`r`) lives in `GrantMap` and is *not* reset; then the
sweep frames 1600…1800 are driven through the RenderSync → sound pipeline. -/
def playbackRun (hist : ℤ → ℕ) (r : Option ℤ) (s : PlayState) :
    Option ℤ × Option ℤ × List (ℤ × ℕ) :=
  playFrames hist r (handlePlay s).1.lastSounded sweepFrames

/-- URL query parameters written by `updateURL`: each of the three parameters
is either absent or holds a value.  The string codec for the two integer
parameters is abstracted to the value level: `parseInt(n.toString(), 10) = n`
for every integer `n`, and `n.toString()` is never the empty string, so the
truthiness test `param ? parseInt(param, 10) : default` takes the parse branch
exactly when the parameter is present. -/
structure QueryParams where
  yearMinParam : Option ℤ
  yearMaxParam : Option ℤ
  radParam : Option String
deriving DecidableEq

/-- App.tsx `updateURL`: starts from empty params and sets only non-default
values (`yearMin` when ≠ 1600, `yearMax` when ≠ 1800, `rad = "true"` when the
radius overlay is on). -/
def updateURL (newYearMin newYearMax : ℤ) (newShowRadius : Bool) : QueryParams :=
  { yearMinParam := if newYearMin ≠ 1600 then some newYearMin else none
    yearMaxParam := if newYearMax ≠ 1800 then some newYearMax else none
    radParam := if newShowRadius then some "true" else none }

/-- App.tsx `yearMin` reader: parse the parameter if present, else 1600. -/
def readYearMin (p : QueryParams) : ℤ :=
  match p.yearMinParam with
  | some v => v
  | none => 1600

/-- App.tsx `yearMax` reader: parse the parameter if present, else 1800. -/
def readYearMax (p : QueryParams) : ℤ :=
  match p.yearMaxParam with
  | some v => v
  | none => 1800

/-- App.tsx `showRadius` reader: whether the rad parameter equals the string true. -/
def readShowRadius (p : QueryParams) : Bool :=
  p.radParam = some "true"

/-- Year attribute of a grant feature as seen by `GrantMap`: `none` models a
year that is `undefined`, not a number, or `NaN`; `some y` a numeric integer
year. -/
abbrev FeatureYear := Option ℤ

/-- Year substituted by the stats effect and `getFillColor` in `GrantMap`:
`feature.properties.year || 1700`.  JavaScript falsiness sends `undefined`,
`NaN` and `0` to the default 1700. -/
def jsYearOrDefault : FeatureYear → ℤ
  | none => 1700
  | some y => if y = 0 then 1700 else y

/-- Visibility predicate of the stats `useEffect` in `GrantMap`:
`const year = feature.properties.year || 1700; year >= yearMin && year <= yearMax`. -/
def statsVisible (f : FeatureYear) (yearMin yearMax : ℤ) : Bool :=
  decide (yearMin ≤ jsYearOrDefault f) && decide (jsYearOrDefault f ≤ yearMax)

/-- `visibleCount` reported by `onStatsUpdate`: number of features passing the
stats visibility predicate. -/
def visibleCount (fs : List FeatureYear) (yearMin yearMax : ℤ) : ℕ :=
  (fs.filter fun f => statsVisible f yearMin yearMax).length

/-- Histogram admission test of `yearCounts` in `GrantMap`:
`const y = typeof year === number ? year : undefined;
if (y && y >= 1600 && y <= 1800)` — the year must be a number, truthy
(non-zero, non-NaN) and inside the domain [1600, 1800]. -/
def usableYear : FeatureYear → Option ℤ
  | none => none
  | some y => if y ≠ 0 ∧ 1600 ≤ y ∧ y ≤ 1800 then some y else none

/-- The `yearCounts` histogram built in `GrantMap`, as a total function
(absent keys read as 0, matching `yearCounts.get(y) || 0`). -/
def yearCountsOf (fs : List FeatureYear) : ℤ → ℕ := fun y =>
  (fs.filter fun f => usableYear f = some y).length

/-- Histogram of the C6 end-to-end scenario: `{1650: 3, 1651: 0, 1652: 7}`,
every other year 0. -/
def hist1650 : ℤ → ℕ := fun y =>
  if y = 1650 then 3 else if y = 1652 then 7 else 0

/-- Sonifier `frequencyForYear`: clamp the year to [1600, 1800]. -/
def clampYear (year : ℤ) : ℤ :=
  max 1600 (min 1800 year)

/-- Sonifier `frequencyForYear`: the step index
`Math.floor(t * (totalSteps - 1))` with `t = (clampedYear - 1600) / 200` and
`totalSteps = 50`.  For integer years the double computation is exact enough
that the floor equals the exact rational floor `(clampedYear - 1600) * 49 / 200`
(the exact value is a multiple of 1/200, so it is at least 1/200 away from any
other integer, far beyond double rounding error); both operands are
non-negative, so integer division is that floor. -/
def idxForYear (year : ℤ) : ℤ :=
  (clampYear year - 1600) * 49 / 200

/-- Sonifier `frequencyForYear`: the pentatonic group index
`Math.floor(idx / scaleSemitones.length)` with 5 scale degrees. -/
def octaveForYear (year : ℤ) : ℤ :=
  idxForYear year / 5

/-- Sonifier `frequencyForYear`: the degree `idx % scaleSemitones.length`. -/
def degreeForYear (year : ℤ) : ℤ :=
  idxForYear year % 5

/-- Lookup in `scaleSemitones = [0, 2, 4, 7, 9]` (C major pentatonic); the
degree argument is always in {0,…,4}. -/
def pentSemi (d : ℤ) : ℤ :=
  if d = 0 then 0 else if d = 1 then 2 else if d = 2 then 4
  else if d = 3 then 7 else 9

/-- Sonifier `frequencyForYear`: the MIDI note
`baseMidi + octave * 2 + scaleSemitones[degree]` with `baseMidi = 60`. -/
def midiForYear (year : ℤ) : ℤ :=
  60 + octaveForYear year * 2 + pentSemi (degreeForYear year)

/-- Sonifier `frequencyForYear`: equal-tempered conversion
`440 * 2 ** ((midi - 69) / 12)`. -/
noncomputable def frequencyForYear (year : ℤ) : ℝ :=
  440 * (2 : ℝ) ^ (((midiForYear year : ℝ) - 69) / 12)

/-- Sonifier `playYear`: clamped point count `Math.max(0, numPoints)`. -/
def safeCount (numPoints : ℤ) : ℤ :=
  max 0 numPoints

/-- Sonifier `playYear`: number of notes in the burst,
`Math.max(1, Math.min(16, Math.round(2 * Math.log2(safeCount + 1))))`.
`Math.round` rounds half away from zero upward, matching the Mathlib `round`
(`⌊x + 1/2⌋`) on the non-negative values that occur here. -/
noncomputable def burstNotes (numPoints : ℤ) : ℤ :=
  max 1 (min 16 (round ((2 : ℝ) * Real.logb 2 ((safeCount numPoints : ℝ) + 1))))

/-- Sonifier `playYear`: total loudness
`Math.min(0.38, mobileBoost * (0.06 + 0.20 * Math.min(1, Math.log1p(safeCount) / Math.log(301))))`
with `mobileBoost = isIOS ? 1.6 : 1.0` and `log1p(x) = log(x + 1)`. -/
noncomputable def totalLoudness (ios : Bool) (numPoints : ℤ) : ℝ :=
  min 0.38 ((if ios then 1.6 else 1.0) *
    (0.06 + 0.20 * min 1 (Real.log ((safeCount numPoints : ℝ) + 1) / Real.log 301)))

/-- Sonifier `playYear`: gain per note, `totalLoudness / Math.sqrt(burstNotes)`. -/
noncomputable def perNoteGain (ios : Bool) (numPoints : ℤ) : ℝ :=
  totalLoudness ios numPoints / Real.sqrt ((burstNotes numPoints : ℝ))

/-- Audio-side state of the `Sonifier` singleton: the `initialized` flag and
the presence of the `AudioContext` and master `GainNode` (their internal
structure is irrelevant to the claims). -/
structure SonifierState where
  inited : Bool
  audioCtx : Option Unit
  masterGain : Option Unit
deriving DecidableEq

/-- One tone scheduled by `playYear`: index in the burst, start time on the
audio clock, oscillator frequency and peak gain. -/
structure ToneEvent where
  noteIndex : ℕ
  startAt : ℝ
  freq : ℝ
  peakGain : ℝ

/-- Lookup in `detuneSemitones = [0, 2, 4, 7, 9, 12]` at `i % 6`. -/
def detuneSemi (i : ℕ) : ℤ :=
  match i % 6 with
  | 0 => 0 | 1 => 2 | 2 => 4 | 3 => 7 | 4 => 9 | _ => 12

/-- Sonifier `playYear`: guarded by
`if (!this.initialized || !this.audioContext || !this.masterGain) return`,
then schedules `burstNotes` tones spaced 14 ms apart with the clamped random
jitter (modelled by the oracle `jitter`), each detuned from
`frequencyForYear` by the arpeggio offset and played at `perNoteGain`.
The call never mutates the sonifier state. -/
noncomputable def playYear (ios : Bool) (jitter : ℕ → ℝ) (st : SonifierState)
    (currentTime : ℝ) (year : ℤ) (numPoints : ℤ) :
    SonifierState × List ToneEvent :=
  if st.inited = false ∨ st.audioCtx = none ∨ st.masterGain = none then (st, [])
  else
    let now := max currentTime 0
    (st, (List.range (burstNotes numPoints).toNat).map fun i =>
      { noteIndex := i
        startAt := now + (i : ℝ) * 0.014 + max (-0.006) (min 0.006 (jitter i))
        freq := frequencyForYear year * (2 : ℝ) ^ ((detuneSemi i : ℝ) / 12)
        peakGain := perNoteGain ios numPoints })

end VAAtlas

namespace VAAtlas

/-- C4: a playback run started by `handlePlay` at `(startYear, endYear) =
(1600, 1800)` first publishes `(1600, 1600)`, then each interval tick advances
`current` by exactly 1 and publishes `(1600, min (current) 1800)`: the trace of
210 ticks equals the 200 ranges `(1600, 1601+i)` (lower bound fixed at 1600,
upper bound never above 1800, final published value exactly 1800), after which
the timer is cancelled and the state has left Running (`playing = false`),
so the ticks beyond the 200th publish nothing. -/
theorem driver_sweep_trace :
    startDriver.2 = (1600, 1600) ∧
    (runTicks 210 startDriver.1).2 =
      (List.range 200).map (fun i => ((1600 : ℤ), 1601 + (i : ℤ))) ∧
    (runTicks 210 startDriver.1).1 =
      { current := 1800, playing := false, timerOn := false } := by
  refine ⟨rfl, ?_, ?_⟩ <;> decide

/-- C8: calling `handlePlay` while already playing is a no-op: the state is
returned unchanged (in particular the in-flight `current` and the timer are
untouched and the de-duplication refs are not reset) and nothing is
published. -/
theorem start_while_playing_noop (s : PlayState) (h : s.isPlaying = true) :
    handlePlay s = (s, []) := by
  simp [handlePlay, h]

/-- C8 witness: starting during an in-flight sweep (current year 1700, armed
timer 7) changes nothing. -/
theorem start_while_playing_noop_witness :
    handlePlay ⟨true, some 1700, some 1699, some 1700, some 7⟩ =
      (⟨true, some 1700, some 1699, some 1700, some 7⟩, []) :=
  start_while_playing_noop ⟨true, some 1700, some 1699, some 1700, some 7⟩ rfl

/-- Consecutive repeated frames for a year already recorded in the reference
are skipped without output. -/
theorem runSync_self (hist : ℤ → ℕ) (y : ℤ) :
    ∀ (n : ℕ) (rest : List ℤ),
      runSync hist (some y) (List.replicate n y ++ rest) =
        runSync hist (some y) rest := by
  intro n
  induction n with
  | zero => intro rest; rfl
  | succ n ih =>
    intro rest
    rw [List.replicate_succ, List.cons_append]
    have hstep : syncStep hist (some y) y = (some y, none) := by
      simp [syncStep]
    simp only [runSync, hstep, Option.toList_none, List.nil_append]
    exact ih rest

/-- General behaviour of RenderSync on a monotone sweep: for strictly
increasing upper values, each rendered at least once, and an initial reference
differing from the first value, the run records the last value and emits one
event per year with positive count, in order. -/
theorem runSync_sorted (hist : ℤ → ℕ) :
    ∀ (years : List ℤ) (k : ℤ → ℕ) (r : Option ℤ),
      years.Pairwise (· < ·) →
      (∀ y ∈ years, 1 ≤ k y) →
      (∀ y, years.head? = some y → r ≠ some y) →
      runSync hist r (expandFrames k years) =
        (years.foldl (fun _ y => some y) r,
         (years.filter fun y => decide (0 < hist y)).map fun y => (y, hist y)) := by
  intro years
  induction years with
  | nil => intro k r _ _ _; rfl
  | cons y ys ih =>
    intro k r hp hk hr
    have hky : 1 ≤ k y := hk y (List.mem_cons_self y ys)
    obtain ⟨m, hm⟩ : ∃ m, k y = m + 1 := ⟨k y - 1, by omega⟩
    have hry : r ≠ some y := hr y rfl
    have hstep : syncStep hist r y =
        (some y, if 0 < hist y then some (y, hist y) else none) := by
      simp [syncStep, hry]
    have hmemy : ∀ z ∈ ys, (some y : Option ℤ) ≠ some z := by
      intro z hz hcon
      have hlt : y < z := (List.pairwise_cons.mp hp).1 z hz
      exact absurd (Option.some.inj hcon) (by omega)
    have hnext : ∀ z, ys.head? = some z → (some y : Option ℤ) ≠ some z :=
      fun z hz => hmemy z (List.mem_of_mem_head? (Option.mem_def.mpr hz))
    have hexp : expandFrames k (y :: ys) =
        y :: (List.replicate m y ++ expandFrames k ys) := by
      show List.replicate (k y) y ++ expandFrames k ys = _
      rw [hm, List.replicate_succ, List.cons_append]
    rw [hexp]
    simp only [runSync, hstep]
    rw [runSync_self]
    rw [ih k (some y) (List.pairwise_cons.mp hp).2
      (fun z hz => hk z (List.mem_cons_of_mem y hz)) hnext]
    by_cases hc : 0 < hist y
    · simp [hc, List.filter_cons, List.foldl_cons]
    · simp [hc, List.filter_cons, List.foldl_cons]

/-- Histogram identically zero yields no emissions at all. -/
theorem runSync_zero (hist : ℤ → ℕ) (hz : ∀ y, hist y = 0) :
    ∀ (frames : List ℤ) (r : Option ℤ), (runSync hist r frames).2 = [] := by
  intro frames
  induction frames with
  | nil => intro r; rfl
  | cons y ys ih =>
    intro r
    by_cases hr : r = some y
    · simp [runSync, syncStep, hr, ih]
    · simp [runSync, syncStep, hr, hz y, ih]

/-- C1: on a monotone sweep with repeats — strictly increasing upper values,
each value driven for one or more frames — RenderSync started from a cleared
reference emits exactly one `onRenderedYearTick` per distinct year with
nonzero histogram count (in sweep order, paired with that count); and whenever
the per-frame check runs with the same `yearMax` as the last recorded year,
no event is emitted and the reference is unchanged. -/
theorem renderSync_at_most_once (hist : ℤ → ℕ) (years : List ℤ) (k : ℤ → ℕ)
    (hsorted : years.Pairwise (· < ·)) (hk : ∀ y ∈ years, 1 ≤ k y) :
    (runSync hist none (expandFrames k years)).2 =
      (years.filter fun y => decide (0 < hist y)).map (fun y => (y, hist y)) ∧
    ∀ y : ℤ, syncStep hist (some y) y = (some y, none) := by
  constructor
  · rw [runSync_sorted hist years k none hsorted hk (fun y _ => by simp)]
  · intro y
    simp [syncStep]

/-- C1 witness: sweeping 1650, 1651, 1652 with every value rendered twice over
the scenario histogram emits one event per nonzero year. -/
theorem renderSync_at_most_once_witness :
    (runSync hist1650 none (expandFrames (fun _ => 2) [1650, 1651, 1652])).2 =
      ([1650, 1651, 1652].filter fun y => decide (0 < hist1650 y)).map
        (fun y => (y, hist1650 y)) ∧
    ∀ y : ℤ, syncStep hist1650 (some y) y = (some y, none) :=
  renderSync_at_most_once hist1650 [1650, 1651, 1652] (fun _ => 2)
    (by decide) (by decide)

/-- C6: a frame whose upper year has histogram count 0 emits no event but
still records that year in the reference; and the end-to-end scenario with
histogram `{1650: 3, 1651: 0, 1652: 7}` swept 1650 → 1652 fires exactly for
`(1650, 3)` and `(1652, 7)`, never for 1651. -/
theorem zero_count_year_recorded :
    (∀ (hist : ℤ → ℕ) (last : Option ℤ) (y : ℤ), hist y = 0 →
       syncStep hist last y = (some y, none)) ∧
    (runSync hist1650 none [1650, 1651, 1652]).2 = [(1650, 3), (1652, 7)] := by
  constructor
  · intro hist last y h
    by_cases hl : last = some y
    · simp [syncStep, hl]
    · simp [syncStep, hl, h]
  · decide

/-- C6 witness: the zero-count frame 1651 of the scenario records the year and
emits nothing. -/
theorem zero_count_year_recorded_witness :
    syncStep hist1650 (some 1650) 1651 = (some 1651, none) ∧
    (runSync hist1650 none [1650, 1651, 1652]).2 = [(1650, 3), (1652, 7)] :=
  ⟨zero_count_year_recorded.1 hist1650 (some 1650) 1651 (by decide),
   zero_count_year_recorded.2⟩

/-- C7 counterexample: a point with a missing year is NOT excluded from the
`visibleCount` reported by `onStatsUpdate`: under the filter range
[1600, 1800] the stats predicate substitutes the default year 1700 and counts
the point as visible. -/
theorem missing_year_counted_visible_cex :
    statsVisible none 1600 1800 = true ∧ visibleCount [none] 1600 1800 = 1 := by
  decide

/-- C7 amended: a point with a missing or unusable year contributes nothing to
the year histogram (hence nothing to sound triggers: a dataset of only such
points never emits), but it is NOT invisible to the stats: the stats effect
substitutes the default year 1700, so the point is counted in `visibleCount`
exactly when 1700 lies within `[yearMin, yearMax]`. -/
theorem missing_year_treatment :
    (∀ (fs : List FeatureYear) (y : ℤ),
       yearCountsOf (none :: fs) y = yearCountsOf fs y) ∧
    (∀ yearMin yearMax : ℤ,
       statsVisible none yearMin yearMax =
         (decide (yearMin ≤ 1700) && decide (1700 ≤ yearMax))) ∧
    (∀ (frames : List ℤ) (r : Option ℤ),
       (runSync (yearCountsOf [none]) r frames).2 = []) := by
  refine ⟨?_, ?_, ?_⟩
  · intro fs y
    simp [yearCountsOf, usableYear, List.filter_cons]
  · intro yearMin yearMax
    rfl
  · exact runSync_zero _ (fun y => rfl)

/-- General behaviour of the RenderSync → sound pipeline during active,
unmuted playback over strictly increasing frames: when the initial render
reference differs from the first frame and the sound reference is fresh for
every frame, every year with positive count is both emitted and sounded
exactly once, in order. -/
theorem playFrames_sorted (hist : ℤ → ℕ) :
    ∀ (frames : List ℤ) (r s : Option ℤ),
      frames.Pairwise (· < ·) →
      (∀ y, frames.head? = some y → r ≠ some y) →
      (∀ y ∈ frames, s ≠ some y) →
      playFrames hist r s frames =
        (frames.foldl (fun _ y => some y) r,
         (frames.filter fun y => decide (0 < hist y)).foldl (fun _ y => some y) s,
         (frames.filter fun y => decide (0 < hist y)).map fun y => (y, hist y)) := by
  intro frames
  induction frames with
  | nil => intro r s _ _ _; rfl
  | cons y ys ih =>
    intro r s hp hr hs
    have hry : r ≠ some y := hr y rfl
    have hsy : s ≠ some y := hs y (List.mem_cons_self y ys)
    have hmemy : ∀ z ∈ ys, (some y : Option ℤ) ≠ some z := by
      intro z hz hcon
      have hlt : y < z := (List.pairwise_cons.mp hp).1 z hz
      exact absurd (Option.some.inj hcon) (by omega)
    have hnext : ∀ z, ys.head? = some z → (some y : Option ℤ) ≠ some z :=
      fun z hz => hmemy z (List.mem_of_mem_head? (Option.mem_def.mpr hz))
    have hstep : syncStep hist r y =
        (some y, if 0 < hist y then some (y, hist y) else none) := by
      simp [syncStep, hry]
    by_cases hc : 0 < hist y
    · have hsnd : soundStep true false s (y, hist y) = (some y, some (y, hist y)) := by
        simp [soundStep, hsy, hc]
      simp only [playFrames, hstep, hc, if_true, hsnd]
      rw [ih (some y) (some y) (List.pairwise_cons.mp hp).2 hnext hmemy]
      simp [List.filter_cons, hc, List.foldl_cons]
    · simp only [playFrames, hstep, hc, if_false]
      rw [ih (some y) s (List.pairwise_cons.mp hp).2 hnext
        (fun z hz => hs z (List.mem_cons_of_mem y hz))]
      simp [List.filter_cons, hc, List.foldl_cons]

/-- Frames of a full sweep are strictly increasing. -/
theorem sweep_pairwise : sweepFrames.Pairwise (· < ·) := by
  refine List.Pairwise.map (fun i : ℕ => 1600 + (i : ℤ)) ?_ (List.pairwise_lt_range 201)
  intro a b hab
  show (1600 : ℤ) + (a : ℤ) < 1600 + (b : ℤ)
  omega

/-- C5: starting a playback run with `handlePlay` resets the sound
de-duplication reference (`lastSoundedYearRef`) to none, and a replay
re-triggers a sound for every year with nonzero histogram count that the
first run triggered: the first run from a fresh render reference sounds
exactly the years with positive count, and a second run started from the
final render reference of the first run (which `handlePlay` does not reset)
produces exactly the same sound triggers. -/
theorem replay_retriggers_all_years (hist : ℤ → ℕ) (s₀ s₁ : PlayState)
    (h₀ : s₀.isPlaying = false) (h₁ : s₁.isPlaying = false) :
    (handlePlay s₀).1.lastSounded = none ∧
    (playbackRun hist none s₀).2.2 =
      (sweepFrames.filter fun y => decide (0 < hist y)).map (fun y => (y, hist y)) ∧
    (playbackRun hist (playbackRun hist none s₀).1 s₁).2.2 =
      (playbackRun hist none s₀).2.2 := by
  have hreset₀ : (handlePlay s₀).1.lastSounded = none := by simp [handlePlay, h₀]
  have hreset₁ : (handlePlay s₁).1.lastSounded = none := by simp [handlePlay, h₁]
  have hfold : sweepFrames.foldl (fun _ y => some y) (none : Option ℤ) = some 1800 := by
    decide
  have hhead : sweepFrames.head? = some 1600 := by decide
  have hrun1 : playbackRun hist none s₀ =
      (sweepFrames.foldl (fun _ y => some y) none,
       (sweepFrames.filter fun y => decide (0 < hist y)).foldl (fun _ y => some y) none,
       (sweepFrames.filter fun y => decide (0 < hist y)).map fun y => (y, hist y)) := by
    unfold playbackRun
    rw [hreset₀]
    exact playFrames_sorted hist sweepFrames none none sweep_pairwise
      (fun y _ => by simp) (fun y _ => by simp)
  have hrun2 : playbackRun hist (playbackRun hist none s₀).1 s₁ =
      (sweepFrames.foldl (fun _ y => some y) (some 1800),
       (sweepFrames.filter fun y => decide (0 < hist y)).foldl (fun _ y => some y) none,
       (sweepFrames.filter fun y => decide (0 < hist y)).map fun y => (y, hist y)) := by
    rw [hrun1]
    show playFrames hist (sweepFrames.foldl (fun _ y => some y) none)
      (handlePlay s₁).1.lastSounded sweepFrames = _
    rw [hfold, hreset₁]
    refine playFrames_sorted hist sweepFrames (some 1800) none sweep_pairwise ?_
      (fun y _ => by simp)
    intro y hy
    rw [hhead] at hy
    have hy' : y = 1600 := (Option.some.inj hy).symm
    subst hy'
    decide
  refine ⟨hreset₀, ?_, ?_⟩
  · rw [hrun1]
  · rw [hrun2, hrun1]

/-- C5 witness: a first run over the scenario histogram followed by an
immediate replay re-triggers the same single sound. -/
theorem replay_retriggers_all_years_witness :
    (handlePlay ⟨false, some 1800, some 1650, some 1800, none⟩).1.lastSounded = none ∧
    (playbackRun hist1650 none ⟨false, some 1800, some 1650, some 1800, none⟩).2.2 =
      (sweepFrames.filter fun y => decide (0 < hist1650 y)).map
        (fun y => (y, hist1650 y)) ∧
    (playbackRun hist1650
        (playbackRun hist1650 none ⟨false, some 1800, some 1650, some 1800, none⟩).1
        ⟨false, none, none, none, none⟩).2.2 =
      (playbackRun hist1650 none ⟨false, some 1800, some 1650, some 1800, none⟩).2.2 :=
  replay_retriggers_all_years hist1650
    ⟨false, some 1800, some 1650, some 1800, none⟩
    ⟨false, none, none, none, none⟩ rfl rfl

/-- C2 counterexample: `frequencyForYear` is not monotonically non-decreasing
on [1600, 1800]: at the boundary between the first two pentatonic groups the
MIDI note falls from 69 (year 1620) to 62 (year 1621), so the frequency drops
from 440 Hz to about 293.7 Hz. -/
theorem frequency_monotonicity_cex :
    (1620 : ℤ) ≤ 1621 ∧ ¬ frequencyForYear 1620 ≤ frequencyForYear 1621 := by
  refine ⟨by decide, ?_⟩
  have h20 : midiForYear 1620 = 69 := by decide
  have h21 : midiForYear 1621 = 62 := by decide
  rw [not_le]
  unfold frequencyForYear
  rw [h20, h21]
  refine mul_lt_mul_of_pos_left ?_ (by norm_num)
  refine (Real.rpow_lt_rpow_left_iff one_lt_two).mpr ?_
  norm_num

/-- C2 amended: for all pairs of years `y1 ≤ y2` the pentatonic group (octave)
index of `frequencyForYear` is monotonically non-decreasing, and
`frequencyForYear 1600 < frequencyForYear 1800`; the frequency itself is not
monotone across group boundaries. -/
theorem octave_monotone_endpoints (y1 y2 : ℤ) (h : y1 ≤ y2) :
    octaveForYear y1 ≤ octaveForYear y2 ∧
    frequencyForYear 1600 < frequencyForYear 1800 := by
  constructor
  · have hc : clampYear y1 ≤ clampYear y2 := by
      unfold clampYear
      exact max_le_max le_rfl (min_le_min le_rfl h)
    have hidx : idxForYear y1 ≤ idxForYear y2 := by
      unfold idxForYear
      exact Int.ediv_le_ediv (by norm_num) (by omega)
    unfold octaveForYear
    exact Int.ediv_le_ediv (by norm_num) hidx
  · have h1600 : midiForYear 1600 = 60 := by decide
    have h1800 : midiForYear 1800 = 87 := by decide
    unfold frequencyForYear
    rw [h1600, h1800]
    refine mul_lt_mul_of_pos_left ?_ (by norm_num)
    refine (Real.rpow_lt_rpow_left_iff one_lt_two).mpr ?_
    norm_num

/-- C2 witness: octave monotone at 1650 ≤ 1700 with the endpoint
inequality. -/
theorem octave_monotone_endpoints_witness :
    octaveForYear 1650 ≤ octaveForYear 1700 ∧
    frequencyForYear 1600 < frequencyForYear 1800 :=
  octave_monotone_endpoints 1650 1700 (by decide)

/-- C3: for every point count (any integer, clamped at 0 by `playYear`) the
number of notes in a burst satisfies `1 ≤ burstNotes ≤ 16` and the derived
total loudness never exceeds the fixed cap 0.38, no matter how large the
count grows. -/
theorem burst_bounds_loudness_cap (numPoints : ℤ) (ios : Bool) :
    1 ≤ burstNotes numPoints ∧ burstNotes numPoints ≤ 16 ∧
    totalLoudness ios numPoints ≤ 0.38 := by
  unfold burstNotes totalLoudness
  exact ⟨le_max_left _ _, max_le (by norm_num) (min_le_left _ _), min_le_left _ _⟩

/-- C9: calling `playYear` before the audio sink has been initialized raises
no error and schedules no tones: the call returns the state unchanged with an
empty schedule, for every year and count. -/
theorem playYear_before_init_noop (ios : Bool) (jitter : ℕ → ℝ)
    (st : SonifierState) (t : ℝ) (year numPoints : ℤ)
    (h : st.inited = false) :
    playYear ios jitter st t year numPoints = (st, []) := by
  unfold playYear
  rw [if_pos (Or.inl h)]

/-- C9 witness: a `playYear` call on the never-initialized sonifier state is a
silent no-op. -/
theorem playYear_before_init_noop_witness :
    playYear false (fun _ => 0) ⟨false, none, none⟩ 0 1650 3 =
      (⟨false, none, none⟩, []) :=
  playYear_before_init_noop false (fun _ => 0) ⟨false, none, none⟩ 0 1650 3 rfl

/-- C10: URL round-trip.  For every integer `yearMin`, `yearMax` and boolean
`showRadius`, writing the query string with `updateURL` (omitting the defaults
1600, 1800 and false) and re-reading it with the three App readers yields
back exactly the same triple. -/
theorem url_roundtrip (a b : ℤ) (r : Bool) :
    readYearMin (updateURL a b r) = a ∧
    readYearMax (updateURL a b r) = b ∧
    readShowRadius (updateURL a b r) = r := by
  refine ⟨?_, ?_, ?_⟩
  · by_cases h : a = 1600 <;> simp [updateURL, readYearMin, h]
  · by_cases h : b = 1800 <;> simp [updateURL, readYearMax, h]
  · cases r <;> simp [updateURL, readShowRadius]

end VAAtlas
